import Mathlib

/-!
Shallow embedding of the `AsyncStore` class of
`src/react-with-use/src/asyncStore.ts` (the Versioned Async Table Store).

The IndexedDB state is modelled explicitly: a database is a list of named
object stores, each with its created indexes and an association list of
keyed records.  Each store operation is a function from the database state
(plus, where the source calls `globalThis.crypto.randomUUID()`, an
externally supplied fresh key) to a result-or-thrown value together with
the resulting database state.
-/

set_option autoImplicit false

namespace AsyncStoreModel

/-- Options `IDBIndexParameters` as passed to `createIndex` (source line 84). -/
structure IDBIndexParameters where
  unique : Bool
  multiEntry : Bool
deriving DecidableEq, Repr

/-- A stored record: the optional `"id"` field (checked by `"id" in resource`
at source line 165) plus the remaining fields, kept opaque. -/
structure Resource where
  idField : Option String
  payload : String
deriving DecidableEq, Repr

/-- A secondary index of an object store; `createIndex(tableKey, tableKey,
options)` at source line 84 uses the index name as its key path. -/
structure StoreIndex where
  name : String
  keyPath : String
  params : IDBIndexParameters
deriving DecidableEq, Repr

/-- An IndexedDB object store: the indexes created on it and its keyed
records, in insertion order. -/
structure ObjectStore where
  indexes : List StoreIndex
  records : List (String × Resource)
deriving DecidableEq, Repr

/-- The backing IndexedDB database: named object stores. -/
structure Database where
  stores : List (String × ObjectStore)
deriving DecidableEq, Repr

/-- The schema declaration `Tables = Record<string, Record<string,
IDBIndexParameters>>` (source line 6): table name to (index name to index
options). -/
abbrev Tables := List (String × List (String × IDBIndexParameters))

/-- Names of the stores of a database, `this.objectStoreNames`. -/
def Database.objectStoreNames (db : Database) : List String :=
  db.stores.map Prod.fst

/-- Membership test `this.objectStoreNames.contains(table)` (source line 70). -/
def Database.containsStore (db : Database) (name : String) : Bool :=
  db.objectStoreNames.contains name

/-- Creation `this.createObjectStore(tableName)` (source line 82): adds a new
empty object store under the given name. -/
def Database.createObjectStore (db : Database) (name : String) : Database :=
  { stores := db.stores ++ [(name, { indexes := [], records := [] })] }

/-- Point update of every entry stored under `name` (the stores keep their
order; entries under other names are untouched). -/
def storesModify (l : List (String × ObjectStore)) (name : String)
    (f : ObjectStore → ObjectStore) : List (String × ObjectStore) :=
  match l with
  | [] => []
  | p :: rest =>
    if p.1 == name then (p.1, f p.2) :: storesModify rest name f
    else p :: storesModify rest name f

/-- First object store stored under `name`, if any. -/
def storesLookup (l : List (String × ObjectStore)) (name : String) : Option ObjectStore :=
  match l with
  | [] => none
  | p :: rest => if p.1 == name then some p.2 else storesLookup rest name

/-- Point update of the object store stored under `name`. -/
def Database.modifyStore (db : Database) (name : String)
    (f : ObjectStore → ObjectStore) : Database :=
  { stores := storesModify db.stores name f }

/-- Look up the object store stored under `name`. -/
def Database.lookupStore (db : Database) (name : String) : Option ObjectStore :=
  storesLookup db.stores name

/-- Index creation `table.createIndex(name, keyPath, options)` on an object
store. -/
def ObjectStore.createIndex (os : ObjectStore) (name keyPath : String)
    (p : IDBIndexParameters) : ObjectStore :=
  { os with indexes := os.indexes ++ [{ name := name, keyPath := keyPath, params := p }] }

/-- Function `createTables` (source lines 68-87): `hasUpdates` is true only when EVERY
declared table is absent; when it is false the function returns at once;
otherwise the tables absent from `objectStoreNames` are collected and each is
created together with its declared indexes (`createIndex(tableKey, tableKey,
options)`). -/
def createTables (db : Database) (tables : Tables) : Database :=
  let hasUpdates := tables.all (fun t => ! db.containsStore t.1)
  if ! hasUpdates then db
  else
    let missingTables := tables.filter (fun t => ! db.containsStore t.1)
    missingTables.foldl
      (fun d t =>
        let d1 := d.createObjectStore t.1
        t.2.foldl
          (fun d2 idx => d2.modifyStore t.1 (fun os => os.createIndex idx.1 idx.1 idx.2))
          d1)
      db

/-- A value thrown or rejected by a store operation:
`Thrown.base msg` is an instance of the `BaseError` hierarchy (source lines
240-265, `name = "AsyncStore"`); `Thrown.generic msg` is a plain `Error`
(as built at source line 235); `Thrown.engine e` is the raw underlying
engine error passed to `reject(event.target.error)`. -/
inductive Thrown where
  | base : String → Thrown
  | generic : String → Thrown
  | engine : String → Thrown
deriving DecidableEq, Repr

/-- Whether a thrown value is an instance of the common `BaseError` base. -/
def Thrown.isBaseError : Thrown → Bool
  | .base _ => true
  | _ => false

/-- Result of `table.get(key)`: the record stored at the key, absence as `none`
(`undefined` from the engine, typed `R | null` in the source). -/
def objGet (recs : List (String × Resource)) (k : String) : Option Resource :=
  match recs with
  | [] => none
  | p :: rest => if p.1 == k then some p.2 else objGet rest k

/-- Semantics of `table.add(resource, key)`: fails with a `ConstraintError` when
a record with that key already exists, otherwise appends the record. -/
def objAdd (recs : List (String × Resource)) (k : String) (r : Resource) :
    Except String (List (String × Resource)) :=
  if (objGet recs k).isSome then Except.error "ConstraintError"
  else Except.ok (recs ++ [(k, r)])

/-- Semantics of `table.put(resource, key)`: overwrites the record at the key if
present, otherwise appends it. -/
def objPut (recs : List (String × Resource)) (k : String) (r : Resource) :
    List (String × Resource) :=
  match recs with
  | [] => [(k, r)]
  | p :: rest => if p.1 == k then (k, r) :: objPut rest k r else p :: objPut rest k r

/-- Semantics of `table.delete(key)`: removes the record at the key; a no-op on
an absent key, never an error. -/
def objDelete (recs : List (String × Resource)) (k : String) :
    List (String × Resource) :=
  match recs with
  | [] => []
  | p :: rest => if p.1 == k then objDelete rest k else p :: objDelete rest k

/-- Result of `table.getAll()`: all stored records. -/
def objGetAll (recs : List (String × Resource)) : List Resource :=
  recs.map Prod.snd

/-- The transaction mode `_getTable` opens for every operation
(source line 96: `store.db.transaction(table, "readwrite")`). -/
def transactionMode : String := "readwrite"

/-- Helper `_getTable` (source lines 91-105) with an established connection:
`db.transaction(table, "readwrite")` throws a `NotFoundError` when the named
object store does not exist, otherwise the operation gets the table's store. -/
def getTable (db : Database) (t : String) : Except String ObjectStore :=
  match db.lookupStore t with
  | some os => Except.ok os
  | none => Except.error "NotFoundError"

namespace AsyncStore

/-- Operation `get` (source lines 107-131): point lookup; a synchronous throw (e.g. from
`_getTable`) is caught and rewrapped as `BaseError("Get query failed. " + e)`;
on success resolves `event.target.result` (the record or absence). -/
def get (db : Database) (t k : String) :
    Except Thrown (Option Resource) × Database :=
  match getTable db t with
  | Except.error e => (Except.error (Thrown.base ("Get query failed. " ++ e)), db)
  | Except.ok os => (Except.ok (objGet os.records k), db)

/-- Operation `getAll` (source lines 133-156): full scan; a synchronous throw is caught
and rewrapped as `BaseError("GetAll query failed. " + e)`; on success resolves
the array of all records (typed `R[] | null` in the source). -/
def getAll (db : Database) (t : String) :
    Except Thrown (Option (List Resource)) × Database :=
  match getTable db t with
  | Except.error e => (Except.error (Thrown.base ("GetAll query failed. " ++ e)), db)
  | Except.ok os => (Except.ok (some (objGetAll os.records)), db)

/-- The storage key `create` passes to `table.add` (source lines 165-169):
the record's own `"id"` field when present, otherwise the freshly generated
`crypto.randomUUID()`. -/
def assignedKey (r : Resource) (fresh : String) : String :=
  match r.idField with
  | some i => i
  | none => fresh

/-- Operation `create` (source lines 158-186): `table.add(resource, key)` with the
assigned key; a synchronous throw is caught and rewrapped as
`BaseError("Create query failed.")`; an engine failure of the add request
(duplicate key) is rejected with the raw engine error. -/
def create (db : Database) (t : String) (r : Resource) (fresh : String) :
    Except Thrown Unit × Database :=
  match getTable db t with
  | Except.error _ => (Except.error (Thrown.base "Create query failed."), db)
  | Except.ok os =>
    match objAdd os.records (assignedKey r fresh) r with
    | Except.error e => (Except.error (Thrown.engine e), db)
    | Except.ok recs =>
      (Except.ok (), db.modifyStore t (fun os2 => { os2 with records := recs }))

/-- Operation `update` (source lines 188-213): `table.put(resource,
globalThis.crypto.randomUUID())` — the record is stored under the fresh
random key, not under its `"id"`; a synchronous throw is caught and rewrapped
as `BaseError("Update query failed.")`. -/
def update (db : Database) (t : String) (r : Resource) (fresh : String) :
    Except Thrown Unit × Database :=
  match getTable db t with
  | Except.error _ => (Except.error (Thrown.base "Update query failed."), db)
  | Except.ok _ =>
    (Except.ok (), db.modifyStore t (fun os => { os with records := objPut os.records fresh r }))

/-- Operation `delete` (source lines 215-237): `table.delete(resourceId)` keyed by the
caller-supplied key (no random key is generated on this path); a synchronous
throw is caught and rewrapped — at source line 235 — as a PLAIN
`Error("Get query failed.")`, not a `BaseError`. -/
def delete (db : Database) (t k : String) : Except Thrown Unit × Database :=
  match getTable db t with
  | Except.error _ => (Except.error (Thrown.generic "Get query failed."), db)
  | Except.ok _ =>
    (Except.ok (), db.modifyStore t (fun os => { os with records := objDelete os.records k }))

end AsyncStore

end AsyncStoreModel

namespace AsyncStoreModel

/-- An object store with no indexes and no records. -/
def emptyStore : ObjectStore := { indexes := [], records := [] }

/-- A backing database with no object stores (fresh database). -/
def dbEmpty : Database := { stores := [] }

/-- A backing database that already contains the table `"a"` and nothing else. -/
def dbWithA : Database := { stores := [("a", emptyStore)] }

/-- Unique-index options. -/
def idxUnique : IDBIndexParameters := { unique := true, multiEntry := false }

/-- A schema declaring tables `"a"` (no indexes) and `"b"` (one unique index
on `"title"`). -/
def tablesAB : Tables := [("a", []), ("b", [("title", idxUnique)])]

/-- A record carrying the id `"u1"` with old payload. -/
def rOld : Resource := { idField := some "u1", payload := "old" }

/-- A record carrying the id `"u1"` with new payload. -/
def rNew : Resource := { idField := some "u1", payload := "new" }

/-- A record carrying no `"id"` field. -/
def rNoId : Resource := { idField := none, payload := "buy milk" }

/-- A `"todos"` object store holding `rOld` at key `"u1"`. -/
def todosStore : ObjectStore := { indexes := [], records := [("u1", rOld)] }

/-- A database with the single table `"todos"` holding `rOld` at key `"u1"`. -/
def dbTodos : Database := { stores := [("todos", todosStore)] }

/-- A database with the single, empty table `"todos"`. -/
def dbTodosEmpty : Database := { stores := [("todos", emptyStore)] }

/-- Unfolding of `getTable` on a known store lookup. -/
theorem getTable_of_lookup {db : Database} {t : String} {os : ObjectStore}
    (hT : db.lookupStore t = some os) : getTable db t = Except.ok os := by
  simp [getTable, hT]

/-- Appending a record under an absent key makes `objGet` find it. -/
theorem objGet_append_self {recs : List (String × Resource)} {k : String} (r : Resource)
    (h : objGet recs k = none) :
    objGet (recs ++ [(k, r)]) k = some r := by
  induction recs with
  | nil => simp [objGet]
  | cons p rest ih =>
    cases hb : (p.1 == k) with
    | true => simp [objGet, hb] at h
    | false =>
      simp only [objGet, hb] at h ⊢
      simpa using ih h

/-- Looking up the modified name after `modifyStore` sees the modification. -/
theorem lookupStore_modifyStore (db : Database) (t : String) (f : ObjectStore → ObjectStore) :
    (db.modifyStore t f).lookupStore t = (db.lookupStore t).map f := by
  rcases db with ⟨l⟩
  show storesLookup (storesModify l t f) t = (storesLookup l t).map f
  induction l with
  | nil => rfl
  | cons p rest ih =>
    cases hb : (p.1 == t) with
    | true => simp [storesModify, storesLookup, hb]
    | false => simpa [storesModify, storesLookup, hb] using ih

/-- After `objPut recs k r`, the key `k` holds `r`. -/
theorem objGet_objPut_self (recs : List (String × Resource)) (k : String) (r : Resource) :
    objGet (objPut recs k r) k = some r := by
  induction recs with
  | nil => simp [objPut, objGet]
  | cons p rest ih =>
    cases hb : (p.1 == k) with
    | true => simp [objPut, objGet, hb]
    | false => simpa [objPut, objGet, hb] using ih

/-- After `objDelete recs k`, the key `k` holds nothing. -/
theorem objGet_objDelete_self (recs : List (String × Resource)) (k : String) :
    objGet (objDelete recs k) k = none := by
  induction recs with
  | nil => rfl
  | cons p rest ih =>
    cases hb : (p.1 == k) with
    | true => simpa [objDelete, hb] using ih
    | false => simpa [objDelete, objGet, hb] using ih

/-- When the transaction can be opened, `delete` resolves void. -/
theorem delete_resolves_of_getTable {db : Database} {t k : String} {os : ObjectStore}
    (h : getTable db t = Except.ok os) :
    (AsyncStore.delete db t k).1 = Except.ok () := by
  simp [AsyncStore.delete, h]

/-- C1: against a database that already contains the declared table `"a"`,
an upgrade pass with the schema declaring `"a"` and `"b"` creates NO table at
all — the absent table `"b"` (and its declared index) is not created, because
`hasUpdates` demands that EVERY declared table be absent — while from a fresh
database the same schema does create `"b"`.  This refutes the stated
invariant that exactly the absent declared tables are always created, and
contradicts the constructor's own migration documentation. -/
theorem c1_createTables_skips_missing_tables :
    createTables dbWithA tablesAB = dbWithA ∧
    (createTables dbWithA tablesAB).containsStore "b" = false ∧
    (createTables dbEmpty tablesAB).containsStore "b" = true :=
  ⟨rfl, rfl, rfl⟩

/-- C2: `update` does not overwrite the record stored at the given key
`"u1"`: it resolves void, but the old record is still stored at `"u1"` and
the new partial record has been put under the freshly generated random key
`"f0"` instead (source line 197 passes `crypto.randomUUID()` as the put
key).  This refutes the claimed upsert-at-key-k behavior. -/
theorem c2_update_stores_at_fresh_key_not_at_id :
    (AsyncStore.update dbTodos "todos" rNew "f0").1 = Except.ok () ∧
    (AsyncStore.get (AsyncStore.update dbTodos "todos" rNew "f0").2 "todos" "u1").1
      = Except.ok (some rOld) ∧
    (AsyncStore.get (AsyncStore.update dbTodos "todos" rNew "f0").2 "todos" "f0").1
      = Except.ok (some rNew) :=
  ⟨rfl, rfl, rfl⟩

/-- C3: for every table present in the database and every record whose
assigned storage key (its `"id"` field when present, the freshly generated
key otherwise) is absent from the table, `create` resolves void, the
assigned key equals the record's id when it has one (and the fresh key
otherwise), and a subsequent `get` with the assigned key returns the record
(round-trip). -/
theorem c3_create_get_roundtrip (db : Database) (t : String) (r : Resource) (fresh : String)
    (os : ObjectStore) (hT : db.lookupStore t = some os)
    (hAbs : objGet os.records (AsyncStore.assignedKey r fresh) = none) :
    (AsyncStore.create db t r fresh).1 = Except.ok () ∧
    (∀ i, r.idField = some i → AsyncStore.assignedKey r fresh = i) ∧
    (r.idField = none → AsyncStore.assignedKey r fresh = fresh) ∧
    (AsyncStore.get (AsyncStore.create db t r fresh).2 t
        (AsyncStore.assignedKey r fresh)).1 = Except.ok (some r) := by
  have hG : getTable db t = Except.ok os := getTable_of_lookup hT
  have hAddOk : objAdd os.records (AsyncStore.assignedKey r fresh) r
      = Except.ok (os.records ++ [(AsyncStore.assignedKey r fresh, r)]) := by
    simp [objAdd, hAbs]
  refine ⟨?_, ?_, ?_, ?_⟩
  · simp [AsyncStore.create, hG, hAddOk]
  · intro i hi
    simp [AsyncStore.assignedKey, hi]
  · intro hi
    simp [AsyncStore.assignedKey, hi]
  · have h2 : (AsyncStore.create db t r fresh).2
        = db.modifyStore t
            (fun os2 => { os2 with records := os.records ++ [(AsyncStore.assignedKey r fresh, r)] }) := by
      simp [AsyncStore.create, hG, hAddOk]
    rw [h2]
    have hL : (db.modifyStore t
        (fun os2 => { os2 with records := os.records ++ [(AsyncStore.assignedKey r fresh, r)] })).lookupStore t
        = some { os with records := os.records ++ [(AsyncStore.assignedKey r fresh, r)] } := by
      rw [lookupStore_modifyStore, hT]
      rfl
    simp [AsyncStore.get, getTable, hL, objGet_append_self r hAbs]

/-- C3 witness: creating the id-less record in the empty `"todos"` table with
the fresh key `"f0"` resolves void, assigns `"f0"`, and `get` at `"f0"`
returns the record. -/
theorem c3_witness :
    (AsyncStore.create dbTodosEmpty "todos" rNoId "f0").1 = Except.ok () ∧
    AsyncStore.assignedKey rNoId "f0" = "f0" ∧
    (AsyncStore.get (AsyncStore.create dbTodosEmpty "todos" rNoId "f0").2 "todos"
        (AsyncStore.assignedKey rNoId "f0")).1 = Except.ok (some rNoId) :=
  ⟨(c3_create_get_roundtrip dbTodosEmpty "todos" rNoId "f0" emptyStore rfl rfl).1,
   (c3_create_get_roundtrip dbTodosEmpty "todos" rNoId "f0" emptyStore rfl rfl).2.2.1 rfl,
   (c3_create_get_roundtrip dbTodosEmpty "todos" rNoId "f0" emptyStore rfl rfl).2.2.2⟩

/-- C4 counterexample: `delete` is keyed by the caller-supplied key, not by a
freshly generated random one: deleting `"u1"` changes the database and
removes exactly the record stored at `"u1"`.  Were the storage key of
`delete` a freshly generated key (hence absent from the table, unequal to
`"u1"`), the database would be left unchanged. -/
theorem c4_counterexample_delete_uses_given_key :
    (AsyncStore.delete dbTodos "todos" "u1").1 = Except.ok () ∧
    (AsyncStore.delete dbTodos "todos" "u1").2 ≠ dbTodos ∧
    (AsyncStore.get (AsyncStore.delete dbTodos "todos" "u1").2 "todos" "u1").1
      = Except.ok none := by
  refine ⟨rfl, by decide, rfl⟩

/-- C4 (amended): for every table present in the database, `update` stores
its record under the freshly generated random key (not under the record's
`"id"`), while `delete` generates no random key: it removes exactly the
record stored at the caller-supplied key. -/
theorem c4_update_fresh_key_delete_given_key (db : Database) (t : String) (r : Resource)
    (fresh k : String) (os : ObjectStore) (hT : db.lookupStore t = some os) :
    (AsyncStore.update db t r fresh).2.lookupStore t
      = some { os with records := objPut os.records fresh r } ∧
    objGet (objPut os.records fresh r) fresh = some r ∧
    (AsyncStore.delete db t k).2.lookupStore t
      = some { os with records := objDelete os.records k } ∧
    objGet (objDelete os.records k) k = none := by
  have hG : getTable db t = Except.ok os := getTable_of_lookup hT
  refine ⟨?_, objGet_objPut_self _ _ _, ?_, objGet_objDelete_self _ _⟩
  · have h2 : (AsyncStore.update db t r fresh).2
        = db.modifyStore t (fun os2 => { os2 with records := objPut os2.records fresh r }) := by
      simp [AsyncStore.update, hG]
    rw [h2, lookupStore_modifyStore, hT]
    rfl
  · have h2 : (AsyncStore.delete db t k).2
        = db.modifyStore t (fun os2 => { os2 with records := objDelete os2.records k }) := by
      simp [AsyncStore.delete, hG]
    rw [h2, lookupStore_modifyStore, hT]
    rfl

/-- C4 witness: on the concrete `"todos"` table, `update` with fresh key
`"f0"` stores the new record at `"f0"`, and `delete` of `"u1"` removes the
record at `"u1"`. -/
theorem c4_witness :
    (AsyncStore.update dbTodos "todos" rNew "f0").2.lookupStore "todos"
      = some { todosStore with records := objPut todosStore.records "f0" rNew } ∧
    objGet (objPut todosStore.records "f0" rNew) "f0" = some rNew ∧
    (AsyncStore.delete dbTodos "todos" "u1").2.lookupStore "todos"
      = some { todosStore with records := objDelete todosStore.records "u1" } ∧
    objGet (objDelete todosStore.records "u1") "u1" = none :=
  c4_update_fresh_key_delete_given_key dbTodos "todos" rNew "f0" "u1" todosStore rfl

/-- C5: the failure surfaced by `delete` when its table handle cannot be
acquired is a PLAIN generic `Error` (`"Get query failed."`, source line 235),
not an instance of the `BaseError` hierarchy — unlike, e.g., the
corresponding `get` failure, which is a `BaseError`.  This refutes the claim
that every surfaced failure is one of the named kinds sharing the common
base. -/
theorem c5_delete_failure_is_generic_error :
    (AsyncStore.delete dbEmpty "todos" "u1").1
      = Except.error (Thrown.generic "Get query failed.") ∧
    Thrown.isBaseError (Thrown.generic "Get query failed.") = false ∧
    (AsyncStore.get dbEmpty "todos" "u1").1
      = Except.error (Thrown.base "Get query failed. NotFoundError") ∧
    Thrown.isBaseError (Thrown.base "Get query failed. NotFoundError") = true :=
  ⟨rfl, rfl, rfl, rfl⟩

/-- C6: for every table present in the database and every key absent from
it, `get` resolves with the absence value (`none`) and leaves the database
unchanged; it does not reject. -/
theorem c6_get_missing_key_resolves_null (db : Database) (t k : String)
    (os : ObjectStore) (hT : db.lookupStore t = some os)
    (hk : objGet os.records k = none) :
    (AsyncStore.get db t k).1 = Except.ok none ∧
    (AsyncStore.get db t k).2 = db := by
  have hG : getTable db t = Except.ok os := getTable_of_lookup hT
  constructor
  · simp [AsyncStore.get, hG, hk]
  · simp [AsyncStore.get, hG]

/-- C6 witness: `get` of the absent key `"zz"` in the concrete `"todos"`
table resolves `none`. -/
theorem c6_witness :
    (AsyncStore.get dbTodos "todos" "zz").1 = Except.ok none ∧
    (AsyncStore.get dbTodos "todos" "zz").2 = dbTodos :=
  c6_get_missing_key_resolves_null dbTodos "todos" "zz" todosStore rfl rfl

/-- C7: for every table present in the database and every record whose
assigned storage key already holds a record, `create` rejects with the
engine's `ConstraintError` and leaves the database unchanged (no silent
overwrite). -/
theorem c7_create_duplicate_rejects (db : Database) (t : String) (r : Resource)
    (fresh : String) (os : ObjectStore) (r0 : Resource)
    (hT : db.lookupStore t = some os)
    (hDup : objGet os.records (AsyncStore.assignedKey r fresh) = some r0) :
    (AsyncStore.create db t r fresh).1 = Except.error (Thrown.engine "ConstraintError") ∧
    (AsyncStore.create db t r fresh).2 = db := by
  have hG : getTable db t = Except.ok os := getTable_of_lookup hT
  have hAdd : objAdd os.records (AsyncStore.assignedKey r fresh) r
      = Except.error "ConstraintError" := by
    simp [objAdd, hDup]
  constructor <;> simp [AsyncStore.create, hG, hAdd]

/-- C7 witness: creating a second record with id `"u1"` in the concrete
`"todos"` table (which already holds a record at `"u1"`) rejects with the
engine `ConstraintError` and changes nothing. -/
theorem c7_witness :
    (AsyncStore.create dbTodos "todos" rNew "f0").1
      = Except.error (Thrown.engine "ConstraintError") ∧
    (AsyncStore.create dbTodos "todos" rNew "f0").2 = dbTodos :=
  c7_create_duplicate_rejects dbTodos "todos" rNew "f0" todosStore rOld rfl rfl

/-- C8: for every table present in the database and EVERY key (present or
absent), `delete` resolves void, and an immediately repeated `delete` of the
same key also resolves void (idempotent success). -/
theorem c8_delete_idempotent (db : Database) (t k : String)
    (os : ObjectStore) (hT : db.lookupStore t = some os) :
    (AsyncStore.delete db t k).1 = Except.ok () ∧
    (AsyncStore.delete (AsyncStore.delete db t k).2 t k).1 = Except.ok () := by
  have hG : getTable db t = Except.ok os := getTable_of_lookup hT
  have h2 : (AsyncStore.delete db t k).2
      = db.modifyStore t (fun os2 => { os2 with records := objDelete os2.records k }) := by
    simp [AsyncStore.delete, hG]
  have hL : (AsyncStore.delete db t k).2.lookupStore t
      = some { os with records := objDelete os.records k } := by
    rw [h2, lookupStore_modifyStore, hT]
    rfl
  have hG2 : getTable (AsyncStore.delete db t k).2 t
      = Except.ok { os with records := objDelete os.records k } := getTable_of_lookup hL
  exact ⟨delete_resolves_of_getTable hG, delete_resolves_of_getTable hG2⟩

/-- C8 witness: deleting the absent key `"zz"` from the concrete `"todos"`
table resolves void twice in a row. -/
theorem c8_witness :
    (AsyncStore.delete dbTodos "todos" "zz").1 = Except.ok () ∧
    (AsyncStore.delete (AsyncStore.delete dbTodos "todos" "zz").2 "todos" "zz").1
      = Except.ok () :=
  c8_delete_idempotent dbTodos "todos" "zz" todosStore rfl

/-- C9: for every present table whose record list is empty, `getAll`
resolves with `some []` — an empty sequence, not the absence value — and
leaves the database unchanged. -/
theorem c9_getAll_empty_returns_empty_array (db : Database) (t : String)
    (os : ObjectStore) (hT : db.lookupStore t = some os) (hE : os.records = []) :
    (AsyncStore.getAll db t).1 = Except.ok (some []) ∧
    (AsyncStore.getAll db t).2 = db := by
  have hG : getTable db t = Except.ok os := getTable_of_lookup hT
  constructor <;> simp [AsyncStore.getAll, hG, hE, objGetAll]

/-- C9 witness: `getAll` of the concrete freshly created empty `"todos"`
table resolves with the empty sequence. -/
theorem c9_witness :
    (AsyncStore.getAll dbTodosEmpty "todos").1 = Except.ok (some []) ∧
    (AsyncStore.getAll dbTodosEmpty "todos").2 = dbTodosEmpty :=
  c9_getAll_empty_returns_empty_array dbTodosEmpty "todos" emptyStore rfl rfl

/-- C10: for every database state, table name and key, the read operations
`get` and `getAll` leave the whole database state unchanged (they issue only
a point lookup or a full scan), even though the transaction `_getTable`
opens for them is in `"readwrite"` mode. -/
theorem c10_reads_leave_database_unchanged (db : Database) (t k : String) :
    (AsyncStore.get db t k).2 = db ∧
    (AsyncStore.getAll db t).2 = db ∧
    transactionMode = "readwrite" := by
  refine ⟨?_, ?_, rfl⟩
  · cases h : getTable db t <;> simp [AsyncStore.get, h]
  · cases h : getTable db t <;> simp [AsyncStore.getAll, h]

end AsyncStoreModel
